import Mathlib

/-!
# Verification of the Excel-editor workbook pipeline (`src/app.py`)

Shallow embedding of the single-file Streamlit Excel editor: the data model
(tables, workbook handles), the workbook writer `write_workbook`, the grid
fallback `build_data_editor_table`, the loader `load_excel`, and the
interaction shell `main`.  Sheets are ordered association lists of names to
tables; per-sheet parse failure is an `Except` error; the writer is embedded
as the imperative loop it is in the source (a left fold over the sheet-name
sequence with a skip and a try/except recovery).
-/

set_option maxHeartbeats 1000000

/-- A spreadsheet cell value: string, number, boolean, or empty. -/
inductive Cell where
  | str (v : String)
  | num (v : Int)
  | bool (v : Bool)
  | empty
deriving DecidableEq, Repr

/-- A parsed sheet: a header of column names and ordered rows of cells
(the embedding of a `pandas.DataFrame` as materialized by `xl.parse`;
`index=False` on write means no index column exists in the model). -/
structure Table where
  header : List String
  rows : List (List Cell)
deriving DecidableEq, Repr

/-- `pd.DataFrame()`: the header-less, zero-row table substituted for an
unreadable pass-through sheet in `write_workbook`. -/
def Table.emptyTable : Table := ⟨[], []⟩

/-- The embedding of a `pd.ExcelFile` handle: an ordered sequence of sheets,
each a name paired with the result of materializing it (`Except` error when
the individual sheet is unreadable, mirroring `xl.parse` raising). -/
structure ExcelFile where
  sheets : List (String × Except String Table)

/-- `xl.sheet_names`: the ordered sheet-name sequence of the handle. -/
def ExcelFile.sheet_names (xl : ExcelFile) : List String :=
  xl.sheets.map Prod.fst

/-- `xl.parse(name)`: materialize one sheet; fails for an unreadable sheet. -/
def ExcelFile.parse (xl : ExcelFile) (name : String) : Except String Table :=
  match xl.sheets.find? (fun p => p.1 == name) with
  | some p => p.2
  | none => Except.error ("Worksheet named " ++ name ++ " not found")

/-- The `try: df_other = xl.parse(name) except: df_other = pd.DataFrame()`
recovery in the writer loop (`src/app.py` lines 88–91). -/
def ExcelFile.parseRecover (xl : ExcelFile) (name : String) : Table :=
  match xl.parse name with
  | Except.ok t => t
  | Except.error _ => Table.emptyTable

/-- An output workbook as produced by the `openpyxl` writer: the sheets in
the order they were written, each with its name. -/
abbrev Workbook : Type := List (String × Table)

/-- Names of an output workbook's sheets, in written order. -/
def Workbook.names (wb : Workbook) : List String := wb.map Prod.fst

/-- Look up a sheet of an output workbook by name (first match). -/
def Workbook.sheet (wb : Workbook) (name : String) : Option Table :=
  (wb.find? (fun p => p.1 == name)).map Prod.snd

/-- One iteration of the `for name in xl.sheet_names` loop of
`write_workbook`: skip the selected sheet, otherwise re-parse with the
empty-table recovery and append the sheet to the writer. -/
def writeStep (xl : ExcelFile) (sheet_name : String) (acc : Workbook)
    (name : String) : Workbook :=
  if name = sheet_name then acc
  else acc ++ [(name, xl.parseRecover name)]

/-- `write_workbook(edits, sheet_name, xl)` (`src/app.py` lines 78–93):
write the edited sheet first under the selected name, then loop over the
original handle's sheet names copying every other sheet. -/
def write_workbook (edits : Table) (sheet_name : String) (xl : ExcelFile) :
    Workbook :=
  xl.sheet_names.foldl (writeStep xl sheet_name) [(sheet_name, edits)]

/-- One loop iteration with the exception flow made explicit: the body runs
in the `Except` monad and the `try/except` is `tryCatch`, so that one can
state that the per-sheet parse error never escapes. -/
def writeStepE (xl : ExcelFile) (sheet_name : String) (acc : Workbook)
    (name : String) : Except String Workbook :=
  if name = sheet_name then pure acc
  else do
    let df_other ← Except.tryCatch (xl.parse name)
      (fun _ => pure Table.emptyTable)
    pure (acc ++ [(name, df_other)])

/-- `write_workbook` with its exception flow explicit: an `Except`-monadic
fold whose only possible error source is the per-sheet parse. -/
def write_workbookE (edits : Table) (sheet_name : String) (xl : ExcelFile) :
    Except String Workbook :=
  xl.sheet_names.foldlM (writeStepE xl sheet_name) [(sheet_name, edits)]

/-- Modelled from the spec: one interaction with the fallback editing
variant (`st.data_editor` with `num_rows="dynamic"`, a widget external to
the repository): the user overwrites cells of the seed table in place
(never changing the row count) and appends newly inserted rows at the end. -/
structure DynamicEdit where
  cellChanges : List (Nat × Nat × Cell)
  addedRows : List (List Cell)

/-- Overwrite one cell at (row, column); out-of-range positions change
nothing (`List.set` semantics). -/
def applyCellChange (rows : List (List Cell)) (ch : Nat × Nat × Cell) :
    List (List Cell) :=
  rows.set ch.1 ((rows.getD ch.1 []).set ch.2.1 ch.2.2)

/-- `build_data_editor_table` (`src/app.py` lines 67–75) composed with the
modelled widget interaction: the edited dataframe the fallback grid returns,
given the seed table and the user's edit. -/
def build_data_editor_table (df : Table) (e : DynamicEdit) : Table :=
  { header := df.header
    rows := (e.cellChanges.foldl applyCellChange df.rows) ++ e.addedRows }

/-- An uploaded file as `main` sees it: its name and the outcome of handing
its bytes to `pd.ExcelFile` (error when the binary is not a parseable
spreadsheet). -/
structure UploadedFile where
  name : String
  content : Except String ExcelFile

/-- User-visible UI effects emitted by the shell, in order. -/
inductive Effect where
  | infoMsg (msg : String)
  | errorMsg (msg : String)
  | metrics (nrows ncols : Nat)
  | grid (t : Table)
  | download (fname : String) (mime : String) (wb : Workbook)
deriving Repr

/-- How one run of `main` ends: a normal return, or a Python exception
escaping `main` uncaught. -/
inductive Outcome where
  | returned
  | raised (exc : String)
deriving DecidableEq, Repr

/-- The observable result of one run of `main`: the emitted effects and how
the run ended. -/
structure MainResult where
  effects : List Effect
  outcome : Outcome

/-- `load_excel` (`src/app.py` lines 40–46): on failure it shows a
user-visible error message and then re-raises the exception. -/
def load_excel (file : UploadedFile) : List Effect × Except String ExcelFile :=
  match file.content with
  | Except.ok xl => ([], Except.ok xl)
  | Except.error exc =>
      ([Effect.errorMsg ("Failed to read Excel file: " ++ exc)],
        Except.error exc)

/-- The MIME type string passed to `st.download_button`. -/
def xlsxMime : String :=
  "application/vnd.openxmlformats-officedocument.spreadsheetml.sheet"

/-- `main` (`src/app.py` lines 96–160), embedded over its environment: the
upload (if any), the sheet selection the selectbox returns for a given
option list, and the edit the grid interaction produces for the displayed
table.  Mirrors the source's guards in order: no file, load (uncaught
re-raise), empty sheet list, falsy selection, selected-sheet parse failure,
then metrics, grid, write and download.  (Named `appMain` because Lean
reserves `main` for executable entry points.) -/
def appMain (uploaded_file : Option UploadedFile)
    (select : List String → String) (edit : Table → Table) : MainResult :=
  match uploaded_file with
  | none =>
      { effects := [Effect.infoMsg "Aucun fichier sélectionné."]
        outcome := Outcome.returned }
  | some file =>
    match load_excel file with
    | (eff, Except.error exc) =>
        { effects := eff, outcome := Outcome.raised exc }
    | (eff, Except.ok xl) =>
      let sheets := xl.sheet_names
      if sheets.isEmpty then
        { effects :=
            eff ++ [Effect.errorMsg "Ce classeur ne contient aucune feuille."]
          outcome := Outcome.returned }
      else
        let sheet_name := select sheets
        if sheet_name = "" then
          { effects := eff, outcome := Outcome.returned }
        else
          match xl.parse sheet_name with
          | Except.error exc =>
              { effects := eff ++
                  [Effect.errorMsg
                    ("Impossible de lire la feuille " ++ sheet_name ++ ": "
                      ++ exc)]
                outcome := Outcome.returned }
          | Except.ok df =>
            let edited_df := edit df
            let data_bytes := write_workbook edited_df sheet_name xl
            { effects := eff ++
                [Effect.metrics df.rows.length df.header.length,
                 Effect.grid df,
                 Effect.download ("modifié_" ++ file.name) xlsxMime
                   data_bytes]
              outcome := Outcome.returned }

/-- One user interaction event driving a rerun of the shell. -/
inductive Event where
  | upload (f : UploadedFile)
  | select (s : String)
  | editCells (e : DynamicEdit)

/-- Modelled from the spec: the Interaction Shell's session-scoped state
across rerun cycles (held by Streamlit's session-state mechanism, which is
external to the repository): the current upload, the currently selected
sheet name, and the fallback editor's accumulated in-progress edit
operations.  Per the spec's transition guards (§4.4), the edit operations
are keyed to the current selection and discarded when the selection or the
upload changes. -/
structure ShellState where
  upload : Option UploadedFile
  selected : String
  edits : List DynamicEdit

/-- The initial `NoFile` state. -/
def ShellState.init : ShellState := ⟨none, "", []⟩

/-- Modelled from the spec: one shell transition per user event.  A new
upload resets selection and edits; selecting a different sheet keeps the
upload but discards in-progress edits; an edit interaction appends its
operation to the current editor state. -/
def ShellState.step (st : ShellState) (ev : Event) : ShellState :=
  match ev with
  | Event.upload f => { upload := some f, selected := "", edits := [] }
  | Event.select s =>
      if s = st.selected then st
      else { upload := st.upload, selected := s, edits := [] }
  | Event.editCells e => { st with edits := st.edits ++ [e] }

/-- Run the shell from a state through a sequence of events. -/
def ShellState.run (st : ShellState) (evs : List Event) : ShellState :=
  evs.foldl ShellState.step st

/-- The table the grid renders in the current cycle (and that the writer
would write for the selected sheet): the freshly parsed selected sheet with
the session's in-progress edit operations applied, `none` when there is no
upload or parsing fails. -/
def ShellState.renderedTable (st : ShellState) : Option Table :=
  match st.upload with
  | none => none
  | some f =>
    match f.content with
    | Except.error _ => none
    | Except.ok xl =>
      match xl.parse st.selected with
      | Except.error _ => none
      | Except.ok df => some (st.edits.foldl build_data_editor_table df)

/-! ## Helper lemmas about the writer loop -/

/-- Closed form of the writer's copy loop: it appends, in original order,
one sheet per non-selected name, each re-parsed with the empty-table
recovery. -/
lemma foldl_writeStep_eq (xl : ExcelFile) (s : String) :
    ∀ (names : List String) (acc : Workbook),
      names.foldl (writeStep xl s) acc
        = acc ++ (names.filter (fun n => n ≠ s)).map
            (fun n => (n, xl.parseRecover n))
  | [], acc => by simp
  | n :: ns, acc => by
    by_cases h : n = s
    · simp [writeStep, h, foldl_writeStep_eq xl s ns acc]
    · simp [writeStep, h, foldl_writeStep_eq xl s ns (acc ++ [(n, xl.parseRecover n)])]

/-- Closed form of `write_workbook`: the edited sheet first, then the
non-selected sheets in original relative order. -/
lemma write_workbook_eq (edits : Table) (s : String) (xl : ExcelFile) :
    write_workbook edits s xl
      = (s, edits) :: (xl.sheet_names.filter (fun n => n ≠ s)).map
          (fun n => (n, xl.parseRecover n)) := by
  simp [write_workbook, foldl_writeStep_eq]

/-- The written sheet names: the selected name first, then the other names
in original relative order. -/
lemma write_workbook_names (edits : Table) (s : String) (xl : ExcelFile) :
    (write_workbook edits s xl).names
      = s :: xl.sheet_names.filter (fun n => n ≠ s) := by
  simp [write_workbook_eq, Workbook.names, Function.comp_def]

/-- The `Except`-monadic loop body never returns an error: the `tryCatch`
swallows the per-sheet parse failure, leaving the pure step. -/
lemma writeStepE_eq_ok (xl : ExcelFile) (s : String) (acc : Workbook)
    (name : String) :
    writeStepE xl s acc name = Except.ok (writeStep xl s acc name) := by
  by_cases h : name = s
  · simp [writeStepE, writeStep, h]
    rfl
  · cases hp : xl.parse name with
    | ok t =>
        simp [writeStepE, writeStep, h, Except.tryCatch, hp,
          ExcelFile.parseRecover]
    | error e =>
        simp [writeStepE, writeStep, h, Except.tryCatch, hp,
          ExcelFile.parseRecover]
        rfl

/-- The whole `Except`-monadic writer loop returns `ok` of the pure loop. -/
lemma foldlM_writeStepE_eq (xl : ExcelFile) (s : String) :
    ∀ (names : List String) (acc : Workbook),
      names.foldlM (writeStepE xl s) acc
        = Except.ok (names.foldl (writeStep xl s) acc)
  | [], acc => rfl
  | n :: ns, acc => by
    rw [List.foldlM_cons, writeStepE_eq_ok]
    simpa using foldlM_writeStepE_eq xl s ns (writeStep xl s acc n)

/-- Cell overwrites never change the row count. -/
lemma applyCellChange_length (rows : List (List Cell)) (ch : Nat × Nat × Cell) :
    (applyCellChange rows ch).length = rows.length := by
  simp [applyCellChange]

/-- A whole batch of cell overwrites never changes the row count. -/
lemma foldl_applyCellChange_length (chs : List (Nat × Nat × Cell)) :
    ∀ rows : List (List Cell),
      (chs.foldl applyCellChange rows).length = rows.length := by
  induction chs with
  | nil => intro rows; rfl
  | cons c cs ih =>
      intro rows
      rw [List.foldl_cons, ih, applyCellChange_length]

/-- Under no-duplicate sheet names, keeping the non-selected names is the
same as erasing the selected one. -/
lemma filter_ne_eq_erase (l : List String) (h : l.Nodup) (a : String) :
    l.filter (fun n => n ≠ a) = l.erase a := by
  rw [h.erase_eq_filter]
  apply List.filter_congr
  intro x _
  simp [bne]
  rfl

/-! ## Claim theorems -/

/-- C3: `write_workbook` writes the edited table first, under the selected
sheet name, and then writes every other sheet of the original handle under
its original name, re-parsed from the handle (with the empty-table
recovery), preserving the original relative order among the non-edited
sheets. -/
theorem write_workbook_output_order (edits : Table) (sheet_name : String)
    (xl : ExcelFile) :
    write_workbook edits sheet_name xl
      = (sheet_name, edits) ::
          (xl.sheet_names.filter (fun n => n ≠ sheet_name)).map
            (fun n => (n, xl.parseRecover n)) :=
  write_workbook_eq edits sheet_name xl

/-- C2: the set of sheet names of the workbook produced by
`write_workbook` equals the set of sheet names of the input handle, for any
handle with at least one sheet and any selected sheet name from the handle,
with no readability assumption on the pass-through sheets. -/
theorem write_sheet_set_preserved (edits : Table) (s : String)
    (xl : ExcelFile) (_hne : xl.sheet_names ≠ [])
    (hmem : s ∈ xl.sheet_names) :
    ∀ x, x ∈ (write_workbook edits s xl).names ↔ x ∈ xl.sheet_names := by
  intro x
  rw [write_workbook_names]
  constructor
  · intro hx
    rcases List.mem_cons.mp hx with h | h
    · exact h ▸ hmem
    · exact (List.mem_filter.mp h).1
  · intro hx
    by_cases hxs : x = s
    · exact hxs ▸ List.mem_cons_self _ _
    · exact List.mem_cons_of_mem _
        (List.mem_filter.mpr ⟨hx, by simpa using hxs⟩)

/-- Fixture for the C2 witness: a readable sheet `A` and an unreadable
sheet `B`. -/
def xlC2 : ExcelFile :=
  ⟨[("A", Except.ok ⟨["a"], [[Cell.num 1]]⟩), ("B", Except.error "boom")]⟩

/-- Witness for C2 at a concrete workbook whose pass-through sheet `A` is
readable and whose selected sheet is `B`. -/
theorem write_sheet_set_preserved_witness :
    xlC2.sheet_names ≠ [] ∧ "B" ∈ xlC2.sheet_names
    ∧ ∀ x, x ∈ (write_workbook ⟨["a"], [[Cell.num 2]]⟩ "B" xlC2).names
        ↔ x ∈ xlC2.sheet_names :=
  ⟨by decide, by decide,
    write_sheet_set_preserved ⟨["a"], [[Cell.num 2]]⟩ "B" xlC2
      (by decide) (by decide)⟩

/-- C10: when the selected name is not a member of the handle's sheet
names, `write_workbook` still returns a workbook, whose names are the new
name followed by every original name (original count + 1 sheets); sheet-set
preservation fails there, so it holds only under the membership
precondition. -/
theorem write_nonmember_plus_one (edits : Table) (s : String)
    (xl : ExcelFile) (h : s ∉ xl.sheet_names) :
    (write_workbook edits s xl).names = s :: xl.sheet_names
    ∧ (write_workbook edits s xl).length = xl.sheet_names.length + 1
    ∧ ¬ (∀ x, x ∈ (write_workbook edits s xl).names ↔ x ∈ xl.sheet_names) := by
  have hfilter : xl.sheet_names.filter (fun n => n ≠ s) = xl.sheet_names :=
    List.filter_eq_self.mpr (fun a ha => by
      simp
      exact fun has => h (has ▸ ha))
  have hnames : (write_workbook edits s xl).names = s :: xl.sheet_names := by
    rw [write_workbook_names, hfilter]
  refine ⟨hnames, ?_, ?_⟩
  · have hlen := congrArg List.length hnames
    simpa [Workbook.names] using hlen
  · intro hall
    have hs : s ∈ (write_workbook edits s xl).names := by
      rw [hnames]; exact List.mem_cons_self s _
    exact h ((hall s).mp hs)

/-- Fixture for the C10 witness: a one-sheet workbook. -/
def xlC10 : ExcelFile := ⟨[("A", Except.ok ⟨["a"], []⟩)]⟩

/-- Witness for C10 at a concrete workbook and a selected name `New` that
is not among its sheet names. -/
theorem write_nonmember_plus_one_witness :
    "New" ∉ xlC10.sheet_names
    ∧ ((write_workbook ⟨[], []⟩ "New" xlC10).names = "New" :: xlC10.sheet_names
      ∧ (write_workbook ⟨[], []⟩ "New" xlC10).length
          = xlC10.sheet_names.length + 1
      ∧ ¬ (∀ x, x ∈ (write_workbook ⟨[], []⟩ "New" xlC10).names
            ↔ x ∈ xlC10.sheet_names)) :=
  ⟨by decide, write_nonmember_plus_one ⟨[], []⟩ "New" xlC10 (by decide)⟩

/-- C4: the writer with its exception flow explicit always returns `ok` of
the pure writer (the per-sheet parse error never escapes to the caller),
and whenever a pass-through sheet is unreadable the output contains the
empty sheet under that name. -/
theorem write_workbook_total_and_recovers (edits : Table) (s : String)
    (xl : ExcelFile) :
    write_workbookE edits s xl = Except.ok (write_workbook edits s xl)
    ∧ ∀ name e, name ∈ xl.sheet_names → name ≠ s →
        xl.parse name = Except.error e →
        (name, Table.emptyTable) ∈ write_workbook edits s xl := by
  constructor
  · simpa [write_workbookE, write_workbook] using
      foldlM_writeStepE_eq xl s xl.sheet_names [(s, edits)]
  · intro name e hmem hne hp
    rw [write_workbook_eq]
    apply List.mem_cons_of_mem
    apply List.mem_map.mpr
    refine ⟨name, List.mem_filter.mpr ⟨hmem, by simpa using hne⟩, ?_⟩
    simp [ExcelFile.parseRecover, hp]

/-- Fixture for the C4 witness: sheet `B` is unreadable. -/
def xlC4 : ExcelFile :=
  ⟨[("A", Except.ok ⟨["a"], [[Cell.num 1]]⟩), ("B", Except.error "boom")]⟩

/-- Witness for C4 at a concrete workbook with an unreadable pass-through
sheet `B`: the monadic writer returns `ok` and `B` becomes the empty
sheet. -/
theorem write_workbook_total_and_recovers_witness :
    ("B" ∈ xlC4.sheet_names ∧ "B" ≠ "A"
      ∧ xlC4.parse "B" = Except.error "boom")
    ∧ write_workbookE ⟨["a"], []⟩ "A" xlC4
        = Except.ok (write_workbook ⟨["a"], []⟩ "A" xlC4)
    ∧ ("B", Table.emptyTable) ∈ write_workbook ⟨["a"], []⟩ "A" xlC4 :=
  ⟨⟨by decide, by decide, rfl⟩,
    (write_workbook_total_and_recovers ⟨["a"], []⟩ "A" xlC4).1,
    (write_workbook_total_and_recovers ⟨["a"], []⟩ "A" xlC4).2 "B" "boom"
      (by decide) (by decide) rfl⟩

/-- C7: writing the table produced by the dynamic-row-count editing variant
puts it, unchanged, as the output's selected sheet, and its row count is
the original row count plus the number of added rows. -/
theorem write_row_growth (df : Table) (e : DynamicEdit) (s : String)
    (xl : ExcelFile) :
    (write_workbook (build_data_editor_table df e) s xl).sheet s
      = some (build_data_editor_table df e)
    ∧ (build_data_editor_table df e).rows.length
        = df.rows.length + e.addedRows.length := by
  constructor
  · rw [write_workbook_eq]
    simp [Workbook.sheet, List.find?]
  · simp [build_data_editor_table, foldl_applyCellChange_length]

/-- C1: writing back the unmodified parsed table of a selected sheet of a
fully readable, duplicate-free workbook yields a workbook whose sheet
names are the selected name first and then the others in their original
relative order — a permutation of the original names — and whose every
sheet equals the parse of its name from the original handle. -/
theorem write_roundtrip_identity (xl : ExcelFile) (si : String) (t : Table)
    (hmem : si ∈ xl.sheet_names) (hnodup : xl.sheet_names.Nodup)
    (hread : ∀ name ∈ xl.sheet_names, ∃ tb, xl.parse name = Except.ok tb)
    (hsi : xl.parse si = Except.ok t) :
    (write_workbook t si xl).names
      = si :: xl.sheet_names.filter (fun n => n ≠ si)
    ∧ (write_workbook t si xl).names.Perm xl.sheet_names
    ∧ ∀ p ∈ write_workbook t si xl, xl.parse p.1 = Except.ok p.2 := by
  have hnames : (write_workbook t si xl).names
      = si :: xl.sheet_names.filter (fun n => n ≠ si) :=
    write_workbook_names t si xl
  refine ⟨hnames, ?_, ?_⟩
  · rw [hnames, filter_ne_eq_erase _ hnodup]
    exact (List.perm_cons_erase hmem).symm
  · intro p hp
    rw [write_workbook_eq] at hp
    rcases List.mem_cons.mp hp with h | h
    · rw [h]
      exact hsi
    · rcases List.mem_map.mp h with ⟨n, hn, rfl⟩
      have hnmem : n ∈ xl.sheet_names := (List.mem_filter.mp hn).1
      rcases hread n hnmem with ⟨tb, htb⟩
      simp [ExcelFile.parseRecover, htb]

/-- Fixture for the C1 witness: three readable sheets. -/
def xlC1 : ExcelFile :=
  ⟨[("A", Except.ok ⟨["a"], [[Cell.num 1]]⟩),
    ("B", Except.ok ⟨["b"], [[Cell.num 2], [Cell.num 3]]⟩),
    ("C", Except.ok ⟨["c"], []⟩)]⟩

/-- Witness for C1: the no-op round trip on the middle sheet `B` of a
concrete three-sheet workbook. -/
theorem write_roundtrip_identity_witness :
    ("B" ∈ xlC1.sheet_names ∧ xlC1.sheet_names.Nodup
      ∧ xlC1.parse "B" = Except.ok ⟨["b"], [[Cell.num 2], [Cell.num 3]]⟩)
    ∧ ((write_workbook ⟨["b"], [[Cell.num 2], [Cell.num 3]]⟩ "B" xlC1).names
        = "B" :: xlC1.sheet_names.filter (fun n => n ≠ "B")
      ∧ (write_workbook ⟨["b"], [[Cell.num 2], [Cell.num 3]]⟩ "B"
          xlC1).names.Perm xlC1.sheet_names
      ∧ ∀ p ∈ write_workbook ⟨["b"], [[Cell.num 2], [Cell.num 3]]⟩ "B" xlC1,
          xlC1.parse p.1 = Except.ok p.2) :=
  ⟨⟨by decide, by decide, rfl⟩,
    write_roundtrip_identity xlC1 "B" ⟨["b"], [[Cell.num 2], [Cell.num 3]]⟩
      (by decide) (by decide)
      (by
        intro name hname
        fin_cases hname
        · exact ⟨⟨["a"], [[Cell.num 1]]⟩, rfl⟩
        · exact ⟨⟨["b"], [[Cell.num 2], [Cell.num 3]]⟩, rfl⟩
        · exact ⟨⟨["c"], []⟩, rfl⟩)
      rfl⟩

/-- Counterexample to C5 as stated: on a concrete corrupt upload the load
error is reported, but the re-raised exception escapes `main` uncaught —
the run ends with `Outcome.raised`, not a normal return. -/
theorem corrupt_guard_counterexample :
    (appMain (some ⟨"f.xlsx", Except.error "not a zip"⟩)
        (fun _ => "") (fun t => t)).outcome
      = Outcome.raised "not a zip"
    ∧ (appMain (some ⟨"f.xlsx", Except.error "not a zip"⟩)
        (fun _ => "") (fun t => t)).outcome ≠ Outcome.returned := by
  constructor
  · rfl
  · intro h
    simp [appMain, load_excel] at h

/-- C5 (amended): for every corrupt upload, the shell reports exactly the
user-visible load error, produces no workbook handle and no further effect
(no metrics, grid or download), and the load exception — re-raised by
`load_excel` and not caught in `main` — escapes `main` to the hosting
framework. -/
theorem corrupt_guard_amended (sel : List String → String)
    (ed : Table → Table) (fname exc : String) :
    appMain (some ⟨fname, Except.error exc⟩) sel ed
      = { effects := [Effect.errorMsg ("Failed to read Excel file: " ++ exc)]
          outcome := Outcome.raised exc } := rfl

/-- C6: for a successfully loaded workbook with an empty sheet sequence,
the shell emits exactly the empty-workbook error and returns normally: no
sheet is parsed, no grid is rendered, no write is performed and no download
is produced. -/
theorem empty_workbook_guard (sel : List String → String)
    (ed : Table → Table) (fname : String) (xl : ExcelFile)
    (h : xl.sheets = []) :
    appMain (some ⟨fname, Except.ok xl⟩) sel ed
      = { effects := [Effect.errorMsg "Ce classeur ne contient aucune feuille."]
          outcome := Outcome.returned } := by
  cases xl
  subst h
  rfl

/-- Witness for C6 at a concrete zero-sheet workbook. -/
theorem empty_workbook_guard_witness :
    (ExcelFile.mk []).sheets = []
    ∧ appMain (some ⟨"empty.xlsx", Except.ok (ExcelFile.mk [])⟩)
        (fun l => l.headD "") (fun t => t)
      = { effects := [Effect.errorMsg "Ce classeur ne contient aucune feuille."]
          outcome := Outcome.returned } :=
  ⟨rfl, empty_workbook_guard (fun l => l.headD "") (fun t => t)
    "empty.xlsx" (ExcelFile.mk []) rfl⟩

/-- C8: on a successful run (readable upload, non-empty sheet list,
non-falsy selection, readable selected sheet), the shell's effects end in a
download whose file name is the fixed marker prefix `modifié_` followed by
the uploaded file's name and whose MIME type is the xlsx container type,
carrying the written workbook. -/
theorem download_name_derivation (file : UploadedFile) (xl : ExcelFile)
    (sel : List String → String) (ed : Table → Table) (df : Table)
    (hload : file.content = Except.ok xl)
    (hsel : sel xl.sheet_names ≠ "")
    (hparse : xl.parse (sel xl.sheet_names) = Except.ok df) :
    (appMain (some file) sel ed).effects
      = [Effect.metrics df.rows.length df.header.length,
         Effect.grid df,
         Effect.download ("modifié_" ++ file.name) xlsxMime
           (write_workbook (ed df) (sel xl.sheet_names) xl)] := by
  have hne : xl.sheet_names.isEmpty = false := by
    cases hs : xl.sheets with
    | nil =>
        exfalso
        rw [ExcelFile.parse, hs] at hparse
        simp [List.find?] at hparse
    | cons p ps =>
        simp [ExcelFile.sheet_names, hs]
  cases file with
  | mk fname content =>
      cases hload
      simp [appMain, load_excel, hne, hsel, hparse]

/-- Fixture for the C8 witness: a single readable sheet `A`. -/
def xlC8 : ExcelFile := ⟨[("A", Except.ok ⟨["a"], [[Cell.num 1]]⟩)]⟩

/-- Witness for C8 on a concrete successful run: the download is named
`modifié_book.xlsx` with the xlsx MIME type. -/
theorem download_name_derivation_witness :
    ((⟨"book.xlsx", Except.ok xlC8⟩ : UploadedFile).content = Except.ok xlC8
      ∧ (fun l => List.headD l "") xlC8.sheet_names ≠ ""
      ∧ xlC8.parse ((fun l => List.headD l "") xlC8.sheet_names)
          = Except.ok ⟨["a"], [[Cell.num 1]]⟩)
    ∧ (appMain (some ⟨"book.xlsx", Except.ok xlC8⟩)
          (fun l => List.headD l "") (fun t => t)).effects
        = [Effect.metrics 1 1,
           Effect.grid ⟨["a"], [[Cell.num 1]]⟩,
           Effect.download "modifié_book.xlsx" xlsxMime
             (write_workbook ⟨["a"], [[Cell.num 1]]⟩ "A" xlC8)] :=
  ⟨⟨rfl, by decide, rfl⟩,
    download_name_derivation ⟨"book.xlsx", Except.ok xlC8⟩ xlC8
      (fun l => List.headD l "") (fun t => t) ⟨["a"], [[Cell.num 1]]⟩
      rfl (by decide) rfl⟩

/-- C9: after selecting a different sheet, the session holds no in-progress
edit operations: the table rendered (and written) for the new selection is
the freshly parsed sheet, with no edit of the previous selection applied,
whatever the earlier event history; likewise a new upload resets selection
and edits. -/
theorem edits_discarded_on_selection_change (st : ShellState)
    (evs : List Event) (s' : String) (f : UploadedFile)
    (hs : s' ≠ (st.run evs).selected) :
    ((st.run (evs ++ [Event.select s'])).edits = []
      ∧ (st.run (evs ++ [Event.select s'])).selected = s'
      ∧ (∀ g xl df, (st.run (evs ++ [Event.select s'])).upload = some g →
          g.content = Except.ok xl → xl.parse s' = Except.ok df →
          (st.run (evs ++ [Event.select s'])).renderedTable = some df
          ∧ (write_workbook df s' xl).sheet s' = some df))
    ∧ ((st.run (evs ++ [Event.upload f])).edits = []
      ∧ (st.run (evs ++ [Event.upload f])).selected = "") := by
  have hstep : ∀ ev, st.run (evs ++ [ev])
      = ShellState.step (st.run evs) ev := by
    intro ev
    simp [ShellState.run, List.foldl_append]
  constructor
  · rw [hstep]
    simp only [ShellState.step, if_neg hs]
    refine ⟨trivial, trivial, ?_⟩
    intro g xl df hg hxl hdf
    constructor
    · simp [ShellState.renderedTable, hg, hxl, hdf]
    · rw [write_workbook_eq]
      simp [Workbook.sheet, List.find?]
  · rw [hstep]
    exact ⟨rfl, rfl⟩

/-- Fixture for the C9 witness: two readable sheets `A` and `B`. -/
def fC9 : UploadedFile :=
  ⟨"book.xlsx",
    Except.ok ⟨[("A", Except.ok ⟨["a"], [[Cell.num 1]]⟩),
                ("B", Except.ok ⟨["b"], [[Cell.num 2]]⟩)]⟩⟩

/-- Witness for C9 on a concrete trace: upload, select `A`, edit a cell,
then select `B` — the edits are discarded and `B` renders freshly
parsed. -/
theorem edits_discarded_on_selection_change_witness :
    ("B" ≠ ((ShellState.init).run
        [Event.upload fC9, Event.select "A",
         Event.editCells ⟨[(0, 0, Cell.num 99)], []⟩]).selected)
    ∧ (((ShellState.init).run
          ([Event.upload fC9, Event.select "A",
            Event.editCells ⟨[(0, 0, Cell.num 99)], []⟩]
            ++ [Event.select "B"])).edits = []
      ∧ ((ShellState.init).run
          ([Event.upload fC9, Event.select "A",
            Event.editCells ⟨[(0, 0, Cell.num 99)], []⟩]
            ++ [Event.select "B"])).selected = "B"
      ∧ (∀ g xl df, ((ShellState.init).run
            ([Event.upload fC9, Event.select "A",
              Event.editCells ⟨[(0, 0, Cell.num 99)], []⟩]
              ++ [Event.select "B"])).upload = some g →
            g.content = Except.ok xl → xl.parse "B" = Except.ok df →
            ((ShellState.init).run
              ([Event.upload fC9, Event.select "A",
                Event.editCells ⟨[(0, 0, Cell.num 99)], []⟩]
                ++ [Event.select "B"])).renderedTable = some df
            ∧ (write_workbook df "B" xl).sheet "B" = some df))
    ∧ (((ShellState.init).run
          ([Event.upload fC9, Event.select "A",
            Event.editCells ⟨[(0, 0, Cell.num 99)], []⟩]
            ++ [Event.upload fC9])).edits = []
      ∧ ((ShellState.init).run
          ([Event.upload fC9, Event.select "A",
            Event.editCells ⟨[(0, 0, Cell.num 99)], []⟩]
            ++ [Event.upload fC9])).selected = "") :=
  ⟨by decide,
    edits_discarded_on_selection_change ShellState.init
      [Event.upload fC9, Event.select "A",
       Event.editCells ⟨[(0, 0, Cell.num 99)], []⟩]
      "B" fC9 (by decide)⟩
